import Mathlib

/-!
Verification of the R&S SMBV100A microwave source driver
(qudi/hardware/microwave/mw_source_smbv.py).

The driver is embedded shallowly: the cached module state (output lock flag,
CW and scan setpoints) is a structure, the instrument is a deterministic
device-state structure updated by the SCPI commands the driver writes, and
every public operation is a function returning either a Python-style error
or the successor state together with the list of commands written.  Powers
and frequencies are modelled as rationals; every numeric value appearing in
the claims is exactly representable.

Polling loops (`*OPC?`, `OUTP:STAT?`) terminate immediately against the
modelled device, which processes each write synchronously, so they are not
represented explicitly.
-/

set_option autoImplicit false

namespace MwSmbv

/-- Modelled from the spec: the scan-mode enumeration of the host framework
(qudi.core.enums.SamplingOutputMode is not part of this repository).  The spec
says only the equidistant sweep is supported by this driver, and the driver's
own interface docstring names a jump-list mode as the other alternative. -/
inductive SamplingOutputMode where
  | JUMP_LIST
  | EQUIDISTANT_SWEEP
  deriving DecidableEq

/-- Modelled from the spec: the trigger-edge polarity enumeration of the host
framework (qudi.core.enums.TriggerEdge is not part of this repository): a
rising and a falling input trigger edge. -/
inductive TriggerEdge where
  | RISING
  | FALLING
  deriving DecidableEq

/-- Modelled from the spec: the constraints-validation helper class of the host
framework ("immutable bounds object computed once at activation ... power
range, frequency range, allowed scan-size range, supported scan modes").  The
driver uses only the boolean component of each `..._in_range` result, so the
range checks below return that boolean. -/
structure MicrowaveConstraints where
  power_limits : ℚ × ℚ
  frequency_limits : ℚ × ℚ
  scan_size_limits : ℕ × ℕ
  scan_modes : List SamplingOutputMode
  deriving DecidableEq

/-- Modelled from the spec: inclusive bounds check against the power range. -/
def MicrowaveConstraints.power_in_range (c : MicrowaveConstraints) (v : ℚ) : Bool :=
  decide (c.power_limits.1 ≤ v ∧ v ≤ c.power_limits.2)

/-- Modelled from the spec: inclusive bounds check against the frequency range. -/
def MicrowaveConstraints.frequency_in_range (c : MicrowaveConstraints) (v : ℚ) : Bool :=
  decide (c.frequency_limits.1 ≤ v ∧ v ≤ c.frequency_limits.2)

/-- Modelled from the spec: inclusive bounds check against the scan-size range. -/
def MicrowaveConstraints.scan_size_in_range (c : MicrowaveConstraints) (n : ℕ) : Bool :=
  decide (c.scan_size_limits.1 ≤ n ∧ n ≤ c.scan_size_limits.2)

/-- Modelled from the spec: membership of a mode in the supported scan modes. -/
def MicrowaveConstraints.mode_supported (c : MicrowaveConstraints)
    (m : SamplingOutputMode) : Bool :=
  c.scan_modes.contains m

/-- Modelled from the spec: the lower bound of the power range. -/
def MicrowaveConstraints.min_power (c : MicrowaveConstraints) : ℚ :=
  c.power_limits.1

/-- The device's internal frequency mode, queried live by `_in_cw_mode`
(`:FREQ:MODE?`). -/
inductive FreqMode where
  | cw
  | sweep
  deriving DecidableEq

/-- SCPI writes issued by the driver, one constructor per distinct command.
`*WAI` writes and the `*OPC?` polling of `_command_wait` are synchronisation
only and carry no state change on the modelled device, so they are omitted. -/
inductive Cmd where
  | freqModeCW
  | freqModeSweep
  | setFreq (v : ℚ)
  | setPow (v : ℚ)
  | outpOn
  | outpOff
  | sweModeStep
  | sweSpacLin
  | freqStart (v : ℚ)
  | freqStop (v : ℚ)
  | sweStepLin (v : ℚ)
  | trigFswSourExt
  | trigSlope (neg : Bool)
  | aborSwe
  deriving DecidableEq

/-- The modelled instrument state: frequency mode, output enable, the last
written CW frequency and power, the programmed sweep bounds and step, and the
trigger slope polarity. -/
structure Device where
  mode : FreqMode
  output : Bool
  freq : ℚ
  pow : ℚ
  sweepStart : ℚ
  sweepStop : ℚ
  sweepStep : ℚ
  trigNeg : Bool
  deriving DecidableEq

/-- Effect of one SCPI write on the modelled instrument. -/
def Device.apply (d : Device) : Cmd → Device
  | .freqModeCW => { d with mode := .cw }
  | .freqModeSweep => { d with mode := .sweep }
  | .setFreq v => { d with freq := v }
  | .setPow v => { d with pow := v }
  | .outpOn => { d with output := true }
  | .outpOff => { d with output := false }
  | .sweModeStep => d
  | .sweSpacLin => d
  | .freqStart v => { d with sweepStart := v }
  | .freqStop v => { d with sweepStop := v }
  | .sweStepLin v => { d with sweepStep := v }
  | .trigFswSourExt => d
  | .trigSlope b => { d with trigNeg := b }
  | .aborSwe => d

/-- Effect of a sequence of SCPI writes on the modelled instrument. -/
def Device.applyAll (d : Device) (cs : List Cmd) : Device :=
  cs.foldl Device.apply d

/-- The cached module state of `MicrowaveSmbv`: the output lock flag
(`module_state() != 'idle'`), the cached setpoints `_cw_power`,
`_cw_frequency`, `_scan_power`, `_scan_frequencies`, and the connected
instrument.  `_scan_frequencies` is kept as the list of values stored by
`np.array(value)` (`none` when unset). -/
structure MWState where
  locked : Bool
  cw_power : ℚ
  cw_frequency : ℚ
  scan_power : ℚ
  scan_frequencies : Option (List ℚ)
  dev : Device
  deriving DecidableEq

/-- Python exceptions the driver can raise: `RuntimeError` (operation invalid
in current state), `AssertionError` (failed `assert`), and `ValueError`
(builtin failure such as unpacking or `min` of an empty sequence). -/
inductive PyError where
  | runtime
  | assertFail
  | valueError
  deriving DecidableEq

/-- Decidable equality for operation results, used to evaluate the embedded
operations on concrete inputs. -/
instance instDecEqExcept {ε α : Type} [DecidableEq ε] [DecidableEq α] :
    DecidableEq (Except ε α) := fun a b =>
  match a, b with
  | .error e, .error f => decidable_of_iff (e = f) (by simp)
  | .error _, .ok _ => isFalse (fun h => Except.noConfusion h)
  | .ok _, .error _ => isFalse (fun h => Except.noConfusion h)
  | .ok a, .ok b => decidable_of_iff (a = b) (by simp)

/-- Result of one driver operation: an exception, or the successor module
state together with the SCPI commands written, in order. -/
abbrev MWRes := Except PyError (MWState × List Cmd)

/-- True exactly when the operation raised. -/
def isErr {α : Type} : Except PyError α → Bool
  | .error _ => true
  | .ok _ => false

/-- Embeds `_in_cw_mode` (line 345): queries `:FREQ:MODE?` and compares with
the string cw. -/
def in_cw_mode (s : MWState) : Bool :=
  s.dev.mode = FreqMode.cw

/-- In `start_scan` (line 309) and `reset_scan` (line 329) the source writes
`if not self._in_cw_mode:` and `if self._in_cw_mode:` WITHOUT calling the
method: the condition tests the bound-method object itself, which is always
truthy in Python, regardless of the device's frequency mode.  This constant
embeds that truthiness. -/
def in_cw_mode_attr_truthy : Bool :=
  true

/-- Embeds `is_scanning` (lines 106-115): locked and not in CW mode. -/
def is_scanning (s : MWState) : Bool :=
  s.locked && !(in_cw_mode s)

/-- Embeds the `cw_power` setter (lines 125-142): raises RuntimeError while
active; asserts the power bound; switches to CW mode if needed; writes the
cached frequency then the new power; refreshes both cached values from the
device read-backs (`:POW?` / `:FREQ?` return what was just written). -/
def cw_power_set (c : MicrowaveConstraints) (s : MWState) (value : ℚ) : MWRes :=
  if s.locked then .error .runtime
  else if c.power_in_range value then
    let modeCmds : List Cmd := if ¬ in_cw_mode s then [Cmd.freqModeCW] else []
    let cmds := modeCmds ++ [Cmd.setFreq s.cw_frequency, Cmd.setPow value]
    let d := s.dev.applyAll cmds
    .ok ({ s with dev := d, cw_power := d.pow, cw_frequency := d.freq }, cmds)
  else .error .assertFail

/-- Embeds the `cw_frequency` setter (lines 153-169): raises RuntimeError
while active; asserts the frequency bound; switches to CW mode if needed;
writes the new frequency then the cached power; refreshes both cached values
from the device read-backs. -/
def cw_frequency_set (c : MicrowaveConstraints) (s : MWState) (value : ℚ) : MWRes :=
  if s.locked then .error .runtime
  else if c.frequency_in_range value then
    let modeCmds : List Cmd := if ¬ in_cw_mode s then [Cmd.freqModeCW] else []
    let cmds := modeCmds ++ [Cmd.setFreq value, Cmd.setPow s.cw_power]
    let d := s.dev.applyAll cmds
    .ok ({ s with dev := d, cw_power := d.pow, cw_frequency := d.freq }, cmds)
  else .error .assertFail

/-- Embeds `_write_sweep` (lines 349-372): switches to sweep mode if in CW
mode, unpacks the stored triple as (start, stop, points) -- unpacking a list
whose length is not 3 raises ValueError -- computes
step = (stop - start) / (points - 1), and programs step mode, linear spacing,
start - step as sweep start, stop as sweep stop, the step width, the scan
power, and the external trigger source. -/
def write_sweep (s : MWState) : MWRes :=
  let modeCmds : List Cmd := if in_cw_mode s then [Cmd.freqModeSweep] else []
  match s.scan_frequencies with
  | some [start, stop, points] =>
    let step := (stop - start) / (points - 1)
    let cmds := modeCmds ++
      [Cmd.sweModeStep, Cmd.sweSpacLin, Cmd.freqStart (start - step),
       Cmd.freqStop stop, Cmd.sweStepLin step, Cmd.setPow s.scan_power,
       Cmd.trigFswSourExt]
    .ok ({ s with dev := s.dev.applyAll cmds }, cmds)
  | _ => .error .valueError

/-- Embeds the `scan_power` setter (lines 180-191): raises RuntimeError while
active; asserts the power bound; stores the value; rewrites the sweep
configuration when scan frequencies are already set. -/
def scan_power_set (c : MicrowaveConstraints) (s : MWState) (value : ℚ) : MWRes :=
  if s.locked then .error .runtime
  else if c.power_in_range value then
    let s1 := { s with scan_power := value }
    match s1.scan_frequencies with
    | some _ => write_sweep s1
    | none => .ok (s1, [])
  else .error .assertFail

/-- Embeds the `scan_frequencies` setter (lines 207-222): raises RuntimeError
while active; asserts `min(value)` and `max(value)` -- the minimum and maximum
over ALL entries of the tuple, the sample count included -- against the
frequency range, and `len(value)` -- the tuple length, 3 for a triple --
against the scan-size range; then stores the value and writes the sweep
configuration.  `min`/`max` of an empty sequence raise ValueError. -/
def scan_frequencies_set (c : MicrowaveConstraints) (s : MWState)
    (value : List ℚ) : MWRes :=
  if s.locked then .error .runtime
  else
    match value.min?, value.max? with
    | some lo, some hi =>
      if c.frequency_in_range lo && c.frequency_in_range hi then
        if c.scan_size_in_range value.length then
          write_sweep { s with scan_frequencies := some value }
        else .error .assertFail
      else .error .assertFail
    | _, _ => .error .valueError

/-- Embeds the `scan_mode` setter (lines 233-243): raises RuntimeError while
active; asserts the mode is supported (the isinstance assertion is enforced by
the embedding's types); then clears the stored scan frequencies. -/
def scan_mode_set (c : MicrowaveConstraints) (s : MWState)
    (value : SamplingOutputMode) : Except PyError MWState :=
  if s.locked then .error .runtime
  else if c.mode_supported value then .ok { s with scan_frequencies := none }
  else .error .assertFail

/-- Embeds the `trigger_edge` setter (lines 255-264): raises RuntimeError
while active; writes the slope polarity (NEG for a falling edge, POS
otherwise). -/
def trigger_edge_set (s : MWState) (value : TriggerEdge) : MWRes :=
  if s.locked then .error .runtime
  else
    let neg := value = TriggerEdge.FALLING
    .ok ({ s with dev := { s.dev with trigNeg := neg } }, [Cmd.trigSlope neg])

/-- Embeds `off` (lines 266-276): when active, writes `OUTP:STAT OFF`, polls
the output-state register until it reads 0 (immediate on the modelled
device), and unlocks; a no-op when idle. -/
def off (s : MWState) : MWRes :=
  if s.locked then
    .ok ({ s with dev := { s.dev with output := false }, locked := false },
      [Cmd.outpOff])
  else .ok (s, [])

/-- Embeds `cw_on` (lines 278-300): when active, returns silently if the
device is in CW mode, else raises RuntimeError; when idle, switches to CW
mode and writes the cached frequency and power ONLY if the device is not in
CW mode already, then enables the output, polls until the output-state
register reads 1 (immediate on the modelled device), and locks. -/
def cw_on (s : MWState) : MWRes :=
  if s.locked then
    if in_cw_mode s then .ok (s, [])
    else .error .runtime
  else
    let cmds : List Cmd :=
      (if ¬ in_cw_mode s then
        [Cmd.freqModeCW, Cmd.setFreq s.cw_frequency, Cmd.setPow s.cw_power]
      else []) ++ [Cmd.outpOn]
    .ok ({ s with dev := s.dev.applyAll cmds, locked := true }, cmds)

/-- Embeds `start_scan` (lines 302-321): when active, the guard
`if not self._in_cw_mode:` negates the always-truthy bound method (see
`in_cw_mode_attr_truthy`), so the early return is unreachable and a
RuntimeError is raised whatever the device mode; when idle, asserts that scan
frequencies are set, switches to sweep mode if in CW mode, enables the
output, polls until confirmed on, and locks. -/
def start_scan (s : MWState) : MWRes :=
  if s.locked then
    if ¬ in_cw_mode_attr_truthy then .ok (s, [])
    else .error .runtime
  else
    match s.scan_frequencies with
    | none => .error .assertFail
    | some _ =>
      let cmds : List Cmd :=
        (if in_cw_mode s then [Cmd.freqModeSweep] else []) ++ [Cmd.outpOn]
      .ok ({ s with dev := s.dev.applyAll cmds, locked := true }, cmds)

/-- Embeds `reset_scan` (lines 323-333): a no-op when idle; when active, the
guard `if self._in_cw_mode:` tests the always-truthy bound method (see
`in_cw_mode_attr_truthy`), so a RuntimeError is raised whatever the device
mode and the `:ABOR:SWE` branch is unreachable. -/
def reset_scan (s : MWState) : MWRes :=
  if ¬ s.locked then .ok (s, [])
  else if in_cw_mode_attr_truthy then .error .runtime
  else .ok ({ s with dev := s.dev.applyAll [Cmd.aborSwe] }, [Cmd.aborSwe])

/-- Embeds the constraints construction in `on_activate` (lines 78-93): the
power range is (-145, 30) when no maximum power is configured and
(-145, max (-145) max_power) otherwise; the frequency range is selected by
the model string; scan sizes range over (2, 10001); the only supported scan
mode is the equidistant sweep. -/
def activate_constraints (model : String) (max_power : Option ℚ) :
    MicrowaveConstraints :=
  { power_limits := (-145,
      match max_power with
      | none => 30
      | some p => max (-145) p)
    frequency_limits :=
      if model = "SMB100A" then (9000, 3200000000) else (9000, 6000000000)
    scan_size_limits := (2, 10001)
    scan_modes := [SamplingOutputMode.EQUIDISTANT_SWEEP] }

/-- The sequence off(); cw_on(); off(), chained on the module state. -/
def off_cwon_off (s : MWState) : Except PyError MWState :=
  match off s with
  | .error e => .error e
  | .ok (s1, _) =>
    match cw_on s1 with
    | .error e => .error e
    | .ok (s2, _) =>
      match off s2 with
      | .error e => .error e
      | .ok (s3, _) => .ok s3

/-- Constraints of an SMBV100A with no configured maximum power, as built at
activation. -/
def cst : MicrowaveConstraints :=
  activate_constraints "SMBV100A" none

/-- An instrument as left by the `*RST` of activation: CW mode, output off. -/
def dev0 : Device :=
  { mode := .cw, output := false, freq := 2000000000, pow := -20,
    sweepStart := 0, sweepStop := 0, sweepStep := 0, trigNeg := false }

/-- The idle module state right after activation: unlocked, setpoints at
their activation defaults, no scan frequencies stored. -/
def idle0 : MWState :=
  { locked := false, cw_power := -145, cw_frequency := 2870000000,
    scan_power := -145, scan_frequencies := none, dev := dev0 }

/-- An idle state holding the stored sweep triple (1e9, 2e9, 5). -/
def idleWithTriple : MWState :=
  { idle0 with scan_frequencies := some [1000000000, 2000000000, 5] }

/-- An active module state whose device runs a sweep. -/
def lockedSweep : MWState :=
  { idleWithTriple with
    locked := true
    dev := { dev0 with mode := .sweep, output := true } }

/-- An active module state whose device outputs CW. -/
def lockedCw : MWState :=
  { idle0 with locked := true, dev := { dev0 with output := true } }

/-- An idle module state whose device sits in sweep mode. -/
def idleSweepDev : MWState :=
  { idle0 with dev := { dev0 with mode := .sweep } }

/-- C1: while the output lock flag is set (module state not idle), every
setpoint setter -- cw_frequency, cw_power, scan_power, scan_frequencies,
scan_mode, trigger_edge -- raises a RuntimeError; since each raises before
touching anything, the cached setpoints are mutated only from the unlocked
state. -/
theorem c1_setters_locked_fail (c : MicrowaveConstraints) (s : MWState)
    (h : s.locked = true) (f p : ℚ) (l : List ℚ) (m : SamplingOutputMode)
    (e : TriggerEdge) :
    cw_frequency_set c s f = .error .runtime ∧
    cw_power_set c s p = .error .runtime ∧
    scan_power_set c s p = .error .runtime ∧
    scan_frequencies_set c s l = .error .runtime ∧
    scan_mode_set c s m = .error .runtime ∧
    trigger_edge_set s e = .error .runtime := by
  simp [cw_frequency_set, cw_power_set, scan_power_set, scan_frequencies_set,
    scan_mode_set, trigger_edge_set, h]

/-- Witness for C1 at a concrete active state. -/
theorem c1_setters_locked_fail_witness :
    cw_frequency_set cst lockedCw 1000000000 = .error .runtime ∧
    cw_power_set cst lockedCw 0 = .error .runtime ∧
    scan_power_set cst lockedCw 0 = .error .runtime ∧
    scan_frequencies_set cst lockedCw [] = .error .runtime ∧
    scan_mode_set cst lockedCw SamplingOutputMode.EQUIDISTANT_SWEEP =
      .error .runtime ∧
    trigger_edge_set lockedCw TriggerEdge.RISING = .error .runtime :=
  c1_setters_locked_fail cst lockedCw rfl 1000000000 0 []
    SamplingOutputMode.EQUIDISTANT_SWEEP TriggerEdge.RISING

/-- C2 (code defect): with the activation constraints, the triple
(1e9, 2e9, 5) has start and stop inside the frequency range and count inside
the scan-size range, yet setting it while idle raises an AssertionError
instead of succeeding: the setter checks min and max over the WHOLE tuple, so
the sample count 5 is compared against the 9 kHz frequency floor, and it
checks the tuple length (always 3) -- not the count -- against the scan-size
range, contradicting its own error message which calls that length the
number of frequency steps. -/
theorem c2_valid_triple_rejected :
    cst.frequency_in_range 1000000000 = true ∧
    cst.frequency_in_range 2000000000 = true ∧
    cst.scan_size_in_range 5 = true ∧
    idle0.locked = false ∧
    scan_frequencies_set cst idle0 [1000000000, 2000000000, 5] =
      .error .assertFail := by
  decide

/-- C3: `_write_sweep` computes step = (stop - start) / (count - 1) from the
stored triple and programs start - step as the device sweep start and stop as
the sweep stop; for the stored triple (1e9, 2e9, 5) the step is 0.25e9 and
the programmed sweep start is 0.75e9.  The state "after setting scan
frequencies (1e9, 2e9, 5)" is however unreachable through the setter, which
rejects that triple (the defect of C2): the final conjunct evaluates the
setter there. -/
theorem c3_sweep_start_programming :
    (∀ (s : MWState) (a b n : ℚ), s.scan_frequencies = some [a, b, n] →
      (write_sweep s).toOption.map
          (fun p => (p.1.dev.sweepStart, p.1.dev.sweepStep, p.1.dev.sweepStop)) =
        some (a - (b - a) / (n - 1), (b - a) / (n - 1), b)) ∧
    ((write_sweep idleWithTriple).toOption.map
        (fun p => (p.1.dev.sweepStart, p.1.dev.sweepStep, p.1.dev.sweepStop)) =
      some (750000000, 250000000, 2000000000)) ∧
    scan_frequencies_set cst idle0 [1000000000, 2000000000, 5] =
      .error .assertFail := by
  have hgen : ∀ (s : MWState) (a b n : ℚ), s.scan_frequencies = some [a, b, n] →
      (write_sweep s).toOption.map
          (fun p => (p.1.dev.sweepStart, p.1.dev.sweepStep, p.1.dev.sweepStop)) =
        some (a - (b - a) / (n - 1), (b - a) / (n - 1), b) := by
    intro s a b n hs
    by_cases hcw : in_cw_mode s <;>
      simp [write_sweep, hs, hcw, Device.applyAll, Device.apply,
        Except.toOption]
  refine ⟨hgen, ?_, by decide⟩
  have h5 := hgen idleWithTriple 1000000000 2000000000 5 rfl
  rw [h5]
  norm_num

/-- Witness for C3 at the concrete stored triple (1e9, 2e9, 5). -/
theorem c3_sweep_start_programming_witness :
    (write_sweep idleWithTriple).toOption.map
        (fun p => (p.1.dev.sweepStart, p.1.dev.sweepStep, p.1.dev.sweepStop)) =
      some (1000000000 - (2000000000 - 1000000000 : ℚ) / (5 - 1),
        (2000000000 - 1000000000 : ℚ) / (5 - 1), 2000000000) :=
  c3_sweep_start_programming.1 idleWithTriple 1000000000 2000000000 5 rfl

/-- C4 (code defect): start_scan raises a RuntimeError whenever the output is
active -- even with the device already in sweep mode, where the claim expects
a silent return -- because the guard negates the always-truthy bound method
instead of its call; from idle without a stored triple it raises an
AssertionError, and from idle with a stored triple it switches the device to
sweep mode, enables the output and sets the lock. -/
theorem c4_start_scan_behavior :
    lockedSweep.locked = true ∧ lockedSweep.dev.mode = FreqMode.sweep ∧
    start_scan lockedSweep = .error .runtime ∧
    start_scan idle0 = .error .assertFail ∧
    (start_scan idleWithTriple).toOption.map
        (fun p => (p.1.locked, p.1.dev.mode, p.1.dev.output, p.2)) =
      some (true, FreqMode.sweep, true, [Cmd.freqModeSweep, Cmd.outpOn]) := by
  decide

/-- C5 (code defect): reset_scan is a no-op when idle, but when the output is
active it raises a RuntimeError even with the device in sweep mode -- where
the claim expects the soft sweep-reset :ABOR:SWE -- because the guard tests
the always-truthy bound method instead of its call. -/
theorem c5_reset_scan_behavior :
    reset_scan idle0 = .ok (idle0, []) ∧
    lockedSweep.locked = true ∧ lockedSweep.dev.mode = FreqMode.sweep ∧
    reset_scan lockedSweep = .error .runtime := by
  decide

/-- C6 counterexample: from idle with the device already in CW mode, cw_on
writes only the output-enable command; the cached frequency and power are not
written to the device, contrary to the claim that it "writes the cached
frequency and power" in every non-error, non-no-op case. -/
theorem c6_counterexample :
    idle0.locked = false ∧ idle0.dev.mode = FreqMode.cw ∧
    cw_on idle0 = .ok ({ idle0 with
        dev := { idle0.dev with output := true }, locked := true },
      [Cmd.outpOn]) ∧
    Cmd.setFreq idle0.cw_frequency ∉ [Cmd.outpOn] ∧
    Cmd.setPow idle0.cw_power ∉ [Cmd.outpOn] := by
  decide

/-- C6 (amended): cw_on raises when the output is active outside CW mode; is
a no-op when active in CW mode; and from idle it switches to CW mode and
writes the cached frequency and power ONLY when the device is not already in
CW mode, in every idle case enabling the output and setting the lock. -/
theorem c6_cw_on_cases (s : MWState) :
    (s.locked = true → s.dev.mode ≠ FreqMode.cw → cw_on s = .error .runtime) ∧
    (s.locked = true → s.dev.mode = FreqMode.cw → cw_on s = .ok (s, [])) ∧
    (s.locked = false → s.dev.mode = FreqMode.cw →
      cw_on s = .ok ({ s with
          locked := true
          dev := { s.dev with output := true } },
        [Cmd.outpOn])) ∧
    (s.locked = false → s.dev.mode ≠ FreqMode.cw →
      cw_on s = .ok ({ s with
          locked := true
          dev := { s.dev with
            mode := .cw
            output := true
            freq := s.cw_frequency
            pow := s.cw_power } },
        [Cmd.freqModeCW, Cmd.setFreq s.cw_frequency, Cmd.setPow s.cw_power,
         Cmd.outpOn])) := by
  refine ⟨fun hl hm => ?_, fun hl hm => ?_, fun hl hm => ?_, fun hl hm => ?_⟩ <;>
    simp [cw_on, in_cw_mode, hl, hm, Device.applyAll, Device.apply]

/-- Witness for C6 (amended) at a concrete idle state whose device is in
sweep mode: the mode switch and both setpoint writes are issued. -/
theorem c6_cw_on_cases_witness :
    cw_on idleSweepDev = .ok ({ idleSweepDev with
        locked := true
        dev := { idleSweepDev.dev with
          mode := .cw
          output := true
          freq := idleSweepDev.cw_frequency
          pow := idleSweepDev.cw_power } },
      [Cmd.freqModeCW, Cmd.setFreq idleSweepDev.cw_frequency,
       Cmd.setPow idleSweepDev.cw_power, Cmd.outpOn]) :=
  (c6_cw_on_cases idleSweepDev).2.2.2 rfl (by decide)

/-- C7 (code defect): the power and frequency setters do reject every
out-of-bounds value (here 100 dBm, above the 30 dBm ceiling, and 100 Hz,
below the 9 kHz floor, both while idle and while active), but the
scan_frequencies setter does NOT: the triple (1e9, 2e9, 20000), whose count
20000 lies outside the scan-size range (2, 10001), is ACCEPTED while idle --
the scan-size check is applied to the tuple length 3 instead of the count,
and 20000 happens to pass the min-frequency check -- so the setter succeeds,
stores the triple and writes the sweep, contradicting the claim that every
out-of-bounds value is rejected. -/
theorem c7_out_of_bounds_scan_size_accepted :
    isErr (cw_power_set cst idle0 100) = true ∧
    isErr (scan_power_set cst idle0 100) = true ∧
    isErr (cw_frequency_set cst idle0 100) = true ∧
    isErr (cw_power_set cst lockedCw 100) = true ∧
    isErr (scan_power_set cst lockedCw 100) = true ∧
    isErr (cw_frequency_set cst lockedCw 100) = true ∧
    cst.scan_size_in_range 20000 = false ∧
    isErr (scan_frequencies_set cst idle0 [1000000000, 2000000000, 20000]) =
      false ∧
    ((scan_frequencies_set cst idle0
        [1000000000, 2000000000, 20000]).toOption.map
      (fun p => p.1.scan_frequencies)) =
      some (some [1000000000, 2000000000, 20000]) := by
  decide

/-- C8 counterexample: while idle with a stored triple, setting the
unsupported jump-list mode raises an AssertionError and does not clear the
stored scan-frequency triple, so setting scan_mode to ANY mode while idle
does not always clear it. -/
theorem c8_counterexample :
    idleWithTriple.locked = false ∧
    idleWithTriple.scan_frequencies ≠ none ∧
    scan_mode_set cst idleWithTriple SamplingOutputMode.JUMP_LIST =
      .error .assertFail := by
  decide

/-- C8 (amended): setting any SUPPORTED scan mode while idle clears the
stored scan-frequency triple; unsupported modes raise and leave the state
unchanged.  Under the activation constraints the only supported mode is the
equidistant sweep. -/
theorem c8_scan_mode_clears (c : MicrowaveConstraints) (s : MWState)
    (m : SamplingOutputMode) (hl : s.locked = false)
    (hm : c.mode_supported m = true) :
    scan_mode_set c s m = .ok { s with scan_frequencies := none } := by
  simp [scan_mode_set, hl, hm]

/-- Witness for C8 (amended) at the concrete idle state with a stored
triple. -/
theorem c8_scan_mode_clears_witness :
    scan_mode_set cst idleWithTriple SamplingOutputMode.EQUIDISTANT_SWEEP =
      .ok { idleWithTriple with scan_frequencies := none } :=
  c8_scan_mode_clears cst idleWithTriple SamplingOutputMode.EQUIDISTANT_SWEEP
    rfl (by decide)

/-- C9: from any idle state, the sequence off(); cw_on(); off() succeeds and
terminates with the output lock flag false and the cached CW setpoint
(frequency, power) equal to its value before the sequence. -/
theorem c9_off_cwon_off (s : MWState) (h : s.locked = false) :
    (off_cwon_off s).toOption.map
        (fun t => (t.locked, t.cw_frequency, t.cw_power)) =
      some (false, s.cw_frequency, s.cw_power) := by
  by_cases hcw : in_cw_mode s <;>
    simp [off_cwon_off, off, cw_on, h, hcw, Device.applyAll, Device.apply,
      Except.toOption]

/-- Witness for C9 at the concrete idle activation state. -/
theorem c9_off_cwon_off_witness :
    (off_cwon_off idle0).toOption.map
        (fun t => (t.locked, t.cw_frequency, t.cw_power)) =
      some (false, 2870000000, -145) :=
  c9_off_cwon_off idle0 rfl

/-- C10: at activation the lower power limit is always -145 dBm; the upper
power limit is 30 dBm when no maximum power is configured and
max (-145) max_power otherwise -- floored at the hardware minimum but not
capped at 30, so a configured maximum above 30 raises the allowed range
beyond 30 dBm. -/
theorem c10_power_limits (m : String) (p : ℚ) :
    (activate_constraints m none).power_limits = (-145, 30) ∧
    (activate_constraints m (some p)).power_limits = (-145, max (-145) p) ∧
    (30 < p →
      (activate_constraints m (some p)).power_limits.2 = p ∧
      30 < (activate_constraints m (some p)).power_limits.2) := by
  refine ⟨rfl, rfl, fun h => ?_⟩
  have hmax : max (-145 : ℚ) p = p := max_eq_right (by linarith)
  constructor
  · simpa [activate_constraints] using hmax
  · simpa [activate_constraints, hmax] using h

/-- Witness for C10 with a configured maximum power of 40 dBm. -/
theorem c10_power_limits_witness :
    (activate_constraints "SMBV100A" (some 40)).power_limits.2 = 40 ∧
    (30 : ℚ) <
      (activate_constraints "SMBV100A" (some 40)).power_limits.2 :=
  (c10_power_limits "SMBV100A" 40).2.2 (by norm_num)

end MwSmbv
